import Mathlib

/-!
Shallow embedding of the radio synchronization subsystem of the
grouptherapy repository: the schedule store query
(`DatabaseStorage.getCurrentScheduledItem`), the metadata resolution
(`GET /api/radio/metadata`), the SSE initial-state message
(`GET /api/radio/stream-state`), the SSE fan-out (`broadcastToSSEClients`),
the schedule mutation handlers, the client playback reconciler
(`handleSSEMessage`, `syncPlaybackPosition`, the progress updater), and the
stateless JWT auth module.

Timestamps are integer milliseconds, durations and positions integer
seconds.  `Math.floor(x / 1000)` on a millisecond difference is modelled
by `Int.fdiv _ 1000` (floor division, rounding toward negative infinity,
exactly as `Math.floor` does on a real quotient).
-/

namespace GroupTherapy

/-- `RadioAsset` row: a playable audio file (shared/schema). -/
structure RadioAsset where
  id : String
  title : String
  artist : String
  audioUrl : String
  durationSeconds : Int
deriving Repr, DecidableEq

/-- `RadioScheduleItem` row: a time-boxed assignment of an asset. -/
structure ScheduleItem where
  id : String
  assetId : String
  showId : Option String
  scheduledStart : Int
  scheduledEnd : Int
deriving Repr, DecidableEq

/-- `RadioShow` row (only the fields the metadata handler reads). -/
structure RadioShow where
  id : String
  title : String
  hostName : String
deriving Repr, DecidableEq

/-- `storage.getRadioAssetById`: `select ... where eq(radioAssets.id, id)`. -/
def getRadioAssetById (assets : List RadioAsset) (id : String) : Option RadioAsset :=
  assets.find? (fun a => a.id == id)

/-- `storage.getRadioShowById`. -/
def getRadioShowById (shows : List RadioShow) (id : String) : Option RadioShow :=
  shows.find? (fun s => s.id == id)

/-- The SQL predicate of `getCurrentScheduledItem`:
`and(lte(radioSchedule.scheduledStart, now), gte(radioSchedule.scheduledEnd, now))`.
Note this is the closed interval `scheduledStart <= now <= scheduledEnd`. -/
def activeAt (now : Int) (it : ScheduleItem) : Bool :=
  decide (it.scheduledStart ≤ now) && decide (now ≤ it.scheduledEnd)

/-- `DatabaseStorage.getCurrentScheduledItem`: rows satisfying `activeAt`,
`orderBy(desc(scheduledStart))`, `limit(1)` — an element of maximal
`scheduledStart` among the qualifying rows (tie order unspecified in SQL;
`argmax` keeps the first). -/
def getCurrentScheduledItem (sched : List ScheduleItem) (now : Int) : Option ScheduleItem :=
  (sched.filter (activeAt now)).argmax (fun it => it.scheduledStart)

/-- `DEMO_STREAM_URL` from server/routes.ts. -/
def DEMO_STREAM_URL : String := "https://stream.zeno.fm/yn65fsaurfhvv"

/-- One entry of the hard-coded `demoTracks` list. -/
structure DemoTrack where
  title : String
  artist : String
  showName : String
  hostName : String
deriving Repr, DecidableEq

/-- The `demoTracks` array of the metadata handler. -/
def demoTracks : List DemoTrack :=
  [ { title := "Midnight Drive", artist := "Luna Wave",
      showName := "Morning Therapy", hostName := "DJ Luna" },
    { title := "Electric Dreams", artist := "Neon Pulse",
      showName := "Peak Time Sessions", hostName := "Neon Pulse" },
    { title := "Deep Waters", artist := "Aqua Dreams",
      showName := "Weekend Warm-Up", hostName := "Aqua Dreams" } ]

/-- JSON body of `GET /api/radio/metadata` (union of both shapes;
fields absent from a branch are `none`). -/
structure MetadataOut where
  isScheduled : Bool
  currentAsset : Option RadioAsset
  streamUrl : String
  startedAt : Option Int
  durationSeconds : Option Int
  positionSeconds : Option Int
  showName : Option String
  hostName : Option String
  title : Option String
  artist : Option String
  listenerCount : Int
deriving Repr, DecidableEq

/-- The fallback branch of the metadata handler: a pseudo-random demo
track (`Math.floor(Math.random() * demoTracks.length)` is the side input
`demoChoice`, reduced mod 3) and the default live-stream URL. -/
def fallbackMetadata (demoChoice : Nat) (listeners : Int) : MetadataOut :=
  let t := demoTracks.getD (demoChoice % demoTracks.length)
    { title := "", artist := "", showName := "", hostName := "" }
  { isScheduled := false
    currentAsset := none
    streamUrl := DEMO_STREAM_URL
    startedAt := none
    durationSeconds := none
    positionSeconds := none
    showName := some t.showName
    hostName := some t.hostName
    title := some t.title
    artist := some t.artist
    listenerCount := listeners }

/-- The `GET /api/radio/metadata` handler.  `now` is `Date.now()`;
`demoChoice` and `listeners` are the handler's random side inputs. -/
def resolveMetadata (sched : List ScheduleItem) (assets : List RadioAsset)
    (shows : List RadioShow) (now : Int) (demoChoice : Nat) (listeners : Int) :
    MetadataOut :=
  match getCurrentScheduledItem sched now with
  | some cur =>
    match getRadioAssetById assets cur.assetId with
    | some a =>
      let positionSeconds := (now - cur.scheduledStart).fdiv 1000
      let showRow := match cur.showId with
        | some sid => getRadioShowById shows sid
        | none => none
      { isScheduled := true
        currentAsset := some a
        streamUrl := a.audioUrl
        startedAt := some cur.scheduledStart
        durationSeconds := some a.durationSeconds
        positionSeconds := some (min positionSeconds a.durationSeconds)
        showName := Option.map (fun s => s.title) showRow
        hostName := Option.map (fun s => s.hostName) showRow
        title := none
        artist := none
        listenerCount := listeners }
    | none => fallbackMetadata demoChoice listeners
  | none => fallbackMetadata demoChoice listeners

/-- Payload of the `state` message the SSE endpoint writes on connect. -/
structure InitStateMsg where
  isScheduled : Bool
  currentAsset : Option RadioAsset
  streamUrl : String
  startedAt : Option Int
  positionSeconds : Option Int
deriving Repr, DecidableEq

/-- The initial-state block of `GET /api/radio/stream-state`.  `none`
means no `state` message is written at all: when a schedule item is
current but its asset lookup fails, both inner `if`s are skipped and the
`else` (live fallback) branch belongs to the outer `if` only. -/
def initialSSEState (sched : List ScheduleItem) (assets : List RadioAsset)
    (now : Int) : Option InitStateMsg :=
  match getCurrentScheduledItem sched now with
  | some cur =>
    match getRadioAssetById assets cur.assetId with
    | some a =>
      let positionSeconds := (now - cur.scheduledStart).fdiv 1000
      some { isScheduled := true
             currentAsset := some a
             streamUrl := a.audioUrl
             startedAt := some cur.scheduledStart
             positionSeconds := some (min positionSeconds a.durationSeconds) }
    | none => none
  | none =>
    some { isScheduled := false
           currentAsset := none
           streamUrl := DEMO_STREAM_URL
           startedAt := none
           positionSeconds := none }

/-- clamp to `[lo, hi]` (the spec's `clamp(x, 0, durationSeconds)`). -/
def clamp (lo hi x : Int) : Int := max lo (min x hi)

/-- One SSE response object in the `sseClients` set: whether `write`
throws on it, and the messages it has received. -/
structure SSEChannel where
  id : Nat
  failsOnWrite : Bool
  received : List String
deriving Repr, DecidableEq

/-- `broadcastToSSEClients`: `sseClients.forEach((client) => client.write(message))`
with no try/catch.  JS `Set.forEach` iterates in insertion order and a
throw in the callback aborts the iteration and propagates.  Returns the
registry after the call (same channels, in order, with their received
logs) and `some id` when channel `id` threw (`none` on success). -/
def broadcastToSSEClients (message : String) :
    List SSEChannel → List SSEChannel × Option Nat
  | [] => ([], none)
  | c :: rest =>
    if c.failsOnWrite then
      (c :: rest, some c.id)
    else
      let r := broadcastToSSEClients message rest
      ({ c with received := c.received ++ [message] } :: r.1, r.2)

/-- A message handed to `broadcastToSSEClients` by a schedule mutation
handler.  `scheduleUpdate` carries the asset only when the handler
attached one. -/
inductive BroadcastMsg where
  | scheduleUpdate (item : ScheduleItem) (asset : Option RadioAsset)
  | scheduleDeleted (scheduleId : String)
deriving Repr, DecidableEq

/-- `POST /api/radio/schedule`: insert the item, then broadcast a
`schedule_update` carrying item and asset — but only when
`getRadioAssetById` resolves; otherwise no broadcast at all.  Returns the
new schedule table and the broadcast message, if any. -/
def createScheduleHandler (sched : List ScheduleItem) (assets : List RadioAsset)
    (item : ScheduleItem) : List ScheduleItem × Option BroadcastMsg :=
  match getRadioAssetById assets item.assetId with
  | some a => (sched ++ [item], some (BroadcastMsg.scheduleUpdate item (some a)))
  | none => (sched ++ [item], none)

/-- `PATCH /api/radio/schedule/:id`: `storage.updateRadioSchedule` throws
when the row is absent (`none` here; the handler answers 400 and does not
broadcast); on success it broadcasts `schedule_update` carrying only the
item, never the asset. -/
def updateScheduleHandler (sched : List ScheduleItem) (id : String)
    (newItem : ScheduleItem) : Option (List ScheduleItem × BroadcastMsg) :=
  if sched.any (fun it => it.id == id) then
    some (sched.map (fun it => if it.id == id then newItem else it),
          BroadcastMsg.scheduleUpdate newItem none)
  else none

/-- `DELETE /api/radio/schedule/:id`: delete then always broadcast
`schedule_deleted` with the id. -/
def deleteScheduleHandler (sched : List ScheduleItem) (id : String) :
    List ScheduleItem × BroadcastMsg :=
  (sched.filter (fun it => !(it.id == id)), BroadcastMsg.scheduleDeleted id)

/-! ## Client playback reconciler (RadioProvider) -/

/-- `currentTrack` state. -/
structure RadioTrack where
  title : String
  artist : String
  showName : Option String
  hostName : Option String
deriving Repr, DecidableEq

/-- The audio element behind `audioRef`.  `loads` counts `load()` calls,
so a reload is visible as an increment. -/
structure AudioEl where
  src : String
  currentTime : Int
  paused : Bool
  loads : Nat
deriving Repr, DecidableEq

/-- `initAudio(streamUrl)` on an existing element: pause, swap `src`,
`load()` (which resets `currentTime` to 0), resume if it was playing —
net effect on `paused` is identity. -/
def initAudio (au : AudioEl) (url : String) : AudioEl :=
  { src := url, currentTime := 0, paused := au.paused, loads := au.loads + 1 }

/-- The RadioProvider state the reconciler claims touch. -/
structure ClientState where
  isScheduled : Bool
  isLive : Bool
  currentAsset : Option RadioAsset
  currentTrack : RadioTrack
  currentStreamUrl : String
  startedAt : Option Int
  progress : Int
  duration : Int
  audio : AudioEl
deriving Repr, DecidableEq

/-- `data.type` of a parsed SSE message. -/
inductive MsgType where
  | state
  | scheduleUpdate
  | scheduleDeleted
deriving Repr, DecidableEq

/-- A parsed SSE message as the client reads it. -/
structure SSEMsg where
  type : MsgType
  isScheduled : Bool
  currentAsset : Option RadioAsset
  streamUrl : String
  startedAt : Option Int
  positionSeconds : Option Int
  showName : Option String
  hostName : Option String
deriving Repr, DecidableEq

/-- `syncPlaybackPosition(positionSeconds)`.  The guard reads
`currentAsset` and `isLive` from the closure, i.e. from the render that
registered the handler — the state *before* the message (`stale`) — while
`audioRef.current` is a live ref, so `currentTime` is read from and
written to the in-progress state `cur`. -/
def syncPlaybackPosition (stale cur : ClientState) (positionSeconds : Int) :
    ClientState :=
  match stale.currentAsset with
  | some a =>
    if stale.isLive then cur
    else
      let targetPosition := min positionSeconds a.durationSeconds
      if 2 < |cur.audio.currentTime - targetPosition| then
        { cur with audio := { cur.audio with currentTime := targetPosition } }
      else cur
  | none => cur

/-- `handleSSEMessage`.  All `useState` values it reads
(`currentStreamUrl`, and through `syncPlaybackPosition` the pair
`currentAsset`/`isLive`) are the pre-message values captured by the
callbacks; only `audioRef` is live. -/
def handleSSEMessage (s : ClientState) (m : SSEMsg) : ClientState :=
  match m.type with
  | MsgType.scheduleDeleted =>
    { s with
      isScheduled := false
      isLive := true
      currentStreamUrl := DEMO_STREAM_URL
      audio := initAudio s.audio DEMO_STREAM_URL }
  | _ =>
    match m.isScheduled, m.currentAsset with
    | true, some a =>
      let s1 := { s with
        isScheduled := true
        isLive := false
        currentAsset := some a
        currentTrack := { title := a.title, artist := a.artist,
                          showName := m.showName, hostName := m.hostName }
        duration := a.durationSeconds }
      let s2 := if m.streamUrl ≠ s.currentStreamUrl then
          { s1 with
            currentStreamUrl := m.streamUrl
            audio := initAudio s1.audio m.streamUrl }
        else s1
      let s3 := match m.startedAt with
        | some t => { s2 with startedAt := some t }
        | none => s2
      match m.positionSeconds with
      | some p => syncPlaybackPosition s s3 p
      | none => s3
    | _, _ =>
      let s1 := { s with
        isScheduled := false
        isLive := true
        currentAsset := none
        currentTrack := { title := "GroupTherapy Radio",
                          artist := "Live Stream",
                          showName := none, hostName := none } }
      if DEMO_STREAM_URL ≠ s.currentStreamUrl then
        { s1 with
          currentStreamUrl := DEMO_STREAM_URL
          audio := initAudio s1.audio DEMO_STREAM_URL }
      else s1

/-- One tick of the `updateProgress` effect: guarded by
`isScheduled && startedAt && currentAsset`, it sets
`progress = min(floor((now - startedAt)/1000), durationSeconds)`. -/
def updateProgressTick (s : ClientState) (now : Int) : ClientState :=
  if s.isScheduled then
    match s.startedAt, s.currentAsset with
    | some startedAt, some a =>
      let elapsed := (now - startedAt).fdiv 1000
      { s with progress := min elapsed a.durationSeconds }
    | _, _ => s
  else s

/-! ## JWT auth module (server/auth.ts) -/

/-- `JWT_EXPIRES_IN = "24h"`, in seconds as `jsonwebtoken` encodes `exp`. -/
def jwtExpiresInSeconds : Int := 86400

/-- An issued bearer token: `jwt.sign({username}, secret)` records the
payload and the signing secret. -/
structure AuthToken where
  username : String
  iat : Int
  signedWith : String
deriving Repr, DecidableEq

/-- Decoded JWT payload. -/
structure JWTPayload where
  username : String
  iat : Int
  exp : Int
deriving Repr, DecidableEq

/-- `generateToken`: sign `{username}` with the secret, `expiresIn 24h`. -/
def generateToken (secret : String) (nowSec : Int) (username : String) : AuthToken :=
  { username := username, iat := nowSec, signedWith := secret }

/-- `verifyToken`: `jwt.verify` succeeds iff the token was signed with
this secret and has not expired (`now < exp`); on failure returns null. -/
def verifyToken (secret : String) (nowSec : Int) (t : AuthToken) : Option JWTPayload :=
  if t.signedWith = secret ∧ nowSec < t.iat + jwtExpiresInSeconds then
    some { username := t.username, iat := t.iat, exp := t.iat + jwtExpiresInSeconds }
  else none

/-- `createSession` is `generateToken`. -/
def createSession (secret : String) (nowSec : Int) (username : String) : AuthToken :=
  generateToken secret nowSec username

/-- `validateSession`: `verifyToken(token)?.username || null`. -/
def validateSession (secret : String) (nowSec : Int) (t : AuthToken) : Option String :=
  Option.map (fun p => p.username) (verifyToken secret nowSec t)

/-- The auth module's only mutable server-side state (the login-attempt
log used for rate limiting); there is no session store. -/
structure AuthModuleState where
  loginAttempts : List (String × Bool)
deriving Repr, DecidableEq

/-- `deleteSession(_token)`: its body is empty — the server state is
returned unchanged. -/
def deleteSession (st : AuthModuleState) (_token : AuthToken) : AuthModuleState := st

/-- `GET /api/auth/me`: reads the bearer token and answers from
`validateSession` alone; the server state is in scope but unread. -/
def authMeHandler (_st : AuthModuleState) (secret : String) (nowSec : Int)
    (t : AuthToken) : Option String :=
  validateSession secret nowSec t

/-! ## Concrete fixtures used by counterexamples and witnesses -/

/-- A schedule item running from 0 ms to 180000 ms over asset `a1`. -/
def itemA : ScheduleItem :=
  { id := "s1", assetId := "a1", showId := none,
    scheduledStart := 0, scheduledEnd := 180000 }

/-- The asset of `itemA`: 180-second track. -/
def assetA : RadioAsset :=
  { id := "a1", title := "Track One", artist := "Artist One",
    audioUrl := "https://cdn.example/a1.mp3", durationSeconds := 180 }

/-- A second item overlapping `itemA`, with the later start. -/
def itemOv : ScheduleItem :=
  { id := "s2", assetId := "a2", showId := none,
    scheduledStart := 60000, scheduledEnd := 240000 }

/-! ## Claim theorems -/

/-- C1: for a query time strictly inside the current item's
`[scheduledStart, scheduledEnd)` window, when that item is the one the
schedule lookup returns and its asset resolves, the metadata resolution
answers `isScheduled = true` with
`positionSeconds = clamp(floor((now - scheduledStart)/1000), 0, durationSeconds)`. -/
theorem metadata_position_inside_window
    (sched : List ScheduleItem) (assets : List RadioAsset) (shows : List RadioShow)
    (now : Int) (demoChoice : Nat) (listeners : Int)
    (it : ScheduleItem) (a : RadioAsset)
    (hsel : getCurrentScheduledItem sched now = some it)
    (ha : getRadioAssetById assets it.assetId = some a)
    (h1 : it.scheduledStart < now) (h2 : now < it.scheduledEnd)
    (hd : 0 ≤ a.durationSeconds) :
    (resolveMetadata sched assets shows now demoChoice listeners).isScheduled = true ∧
    (resolveMetadata sched assets shows now demoChoice listeners).positionSeconds =
      some (clamp 0 a.durationSeconds ((now - it.scheduledStart).fdiv 1000)) := by
  have hv : 0 ≤ (now - it.scheduledStart).fdiv 1000 :=
    Int.fdiv_nonneg (by omega) (by omega)
  have hclamp : clamp 0 a.durationSeconds ((now - it.scheduledStart).fdiv 1000)
      = min ((now - it.scheduledStart).fdiv 1000) a.durationSeconds := by
    unfold clamp
    exact max_eq_right (le_min hv hd)
  unfold resolveMetadata
  rw [hsel]
  dsimp only
  rw [ha]
  dsimp only
  rw [hclamp]
  exact ⟨rfl, rfl⟩

/-- Witness for C1 at `now = 5000` ms inside `itemA`'s window. -/
theorem metadata_position_inside_window_witness :
    (resolveMetadata [itemA] [assetA] [] 5000 0 127).isScheduled = true ∧
    (resolveMetadata [itemA] [assetA] [] 5000 0 127).positionSeconds =
      some (clamp 0 assetA.durationSeconds ((5000 - itemA.scheduledStart).fdiv 1000)) :=
  metadata_position_inside_window [itemA] [assetA] [] 5000 0 127 itemA assetA
    (by decide) (by decide) (by decide) (by decide) (by decide)

/-- C2 counterexample: at `now = scheduledEnd` exactly (here 180000 ms),
the lookup still selects the item (the SQL window is the closed interval
`scheduledStart <= now <= scheduledEnd`) and the metadata resolution
reports `isScheduled = true`, contradicting the claimed half-open window. -/
theorem currentItem_at_scheduledEnd_cex :
    getCurrentScheduledItem [itemA] 180000 = some itemA ∧
    (resolveMetadata [itemA] [assetA] [] 180000 0 127).isScheduled = true := by
  decide

/-- C2 amended: for `now` outside every *closed* window
`[scheduledStart, scheduledEnd]` — in particular whenever
`now > scheduledEnd`, as in the spec's T+200s example — the lookup
selects nothing and the metadata resolution returns the live fallback
with `isScheduled = false`. -/
theorem metadata_outside_every_closed_window
    (sched : List ScheduleItem) (assets : List RadioAsset) (shows : List RadioShow)
    (now : Int) (demoChoice : Nat) (listeners : Int)
    (h : ∀ it ∈ sched, ¬ (it.scheduledStart ≤ now ∧ now ≤ it.scheduledEnd)) :
    getCurrentScheduledItem sched now = none ∧
    (resolveMetadata sched assets shows now demoChoice listeners).isScheduled = false := by
  have hf : sched.filter (activeAt now) = [] := by
    rw [List.filter_eq_nil_iff]
    intro it hit
    have hne := h it hit
    simp only [activeAt, Bool.and_eq_true, decide_eq_true_eq]
    exact hne
  have hnone : getCurrentScheduledItem sched now = none := by
    unfold getCurrentScheduledItem
    rw [hf]
    rfl
  constructor
  · exact hnone
  · unfold resolveMetadata
    rw [hnone]
    rfl

/-- Witness for the amended C2 at the spec's T+200s example:
`itemA` ends at 180000 ms and the query is at 200000 ms. -/
theorem metadata_outside_every_closed_window_witness :
    getCurrentScheduledItem [itemA] 200000 = none ∧
    (resolveMetadata [itemA] [assetA] [] 200000 0 127).isScheduled = false :=
  metadata_outside_every_closed_window [itemA] [assetA] [] 200000 0 127
    (by decide)

/-- C3: when two distinct items' windows both contain `now`, the lookup
returns a qualifying item whose `scheduledStart` is maximal among all
qualifying items (the most recently started one). -/
theorem overlap_picks_latest_start
    (sched : List ScheduleItem) (now : Int) (it1 it2 : ScheduleItem)
    (h1 : it1 ∈ sched) (h2 : it2 ∈ sched) (hne : it1 ≠ it2)
    (q1 : it1.scheduledStart ≤ now ∧ now < it1.scheduledEnd)
    (q2 : it2.scheduledStart ≤ now ∧ now < it2.scheduledEnd) :
    ∃ r, getCurrentScheduledItem sched now = some r ∧ r ∈ sched ∧
      r.scheduledStart ≤ now ∧ now ≤ r.scheduledEnd ∧
      ∀ it ∈ sched, it.scheduledStart ≤ now → now ≤ it.scheduledEnd →
        it.scheduledStart ≤ r.scheduledStart := by
  have hq1 : activeAt now it1 = true := by
    simp only [activeAt, Bool.and_eq_true, decide_eq_true_eq]
    omega
  have hmem : it1 ∈ sched.filter (activeAt now) := List.mem_filter.2 ⟨h1, hq1⟩
  cases hr : (sched.filter (activeAt now)).argmax (fun it => it.scheduledStart) with
  | none =>
    rw [List.argmax_eq_none.1 hr] at hmem
    exact absurd hmem (List.not_mem_nil it1)
  | some r =>
    have hrmem : r ∈ sched.filter (activeAt now) :=
      List.argmax_mem (Option.mem_def.mpr hr)
    have hrq := List.mem_filter.1 hrmem
    have hract : r.scheduledStart ≤ now ∧ now ≤ r.scheduledEnd := by
      have := hrq.2
      simp only [activeAt, Bool.and_eq_true, decide_eq_true_eq] at this
      exact this
    refine ⟨r, hr, hrq.1, hract.1, hract.2, ?_⟩
    intro it hit hsta hend
    have hitf : it ∈ sched.filter (activeAt now) := by
      refine List.mem_filter.2 ⟨hit, ?_⟩
      simp only [activeAt, Bool.and_eq_true, decide_eq_true_eq]
      exact ⟨hsta, hend⟩
    exact List.le_of_mem_argmax hitf (Option.mem_def.mpr hr)

/-- Witness for C3: `itemA` (start 0) and `itemOv` (start 60000) both
contain `now = 120000`. -/
theorem overlap_picks_latest_start_witness :
    ∃ r, getCurrentScheduledItem [itemA, itemOv] 120000 = some r ∧
      r ∈ [itemA, itemOv] ∧
      r.scheduledStart ≤ 120000 ∧ (120000 : Int) ≤ r.scheduledEnd ∧
      ∀ it ∈ [itemA, itemOv], it.scheduledStart ≤ 120000 →
        (120000 : Int) ≤ it.scheduledEnd →
        it.scheduledStart ≤ r.scheduledStart :=
  overlap_picks_latest_start [itemA, itemOv] 120000 itemA itemOv
    (by decide) (by decide) (by decide) (by decide) (by decide)

/-- C4 counterexample: with `itemA` current but no asset `a1` in store,
the SSE endpoint's initial-state block sends *no* message at all — in
particular it does not send the claimed live-fallback payload with
`isScheduled = false`. -/
theorem sse_initial_dangling_cex :
    getCurrentScheduledItem [itemA] 5000 = some itemA ∧
    getRadioAssetById [] itemA.assetId = none ∧
    ¬ ∃ m, initialSSEState [itemA] [] 5000 = some m ∧ m.isScheduled = false := by
  refine ⟨by decide, by decide, ?_⟩
  intro hm
  obtain ⟨m, hm, _⟩ := hm
  have hnone : initialSSEState [itemA] [] 5000 = none := by decide
  rw [hnone] at hm
  exact Option.noConfusion hm

/-- C4 amended: when the current schedule item's asset reference is
dangling, the metadata endpoint degrades to the live fallback
(`isScheduled = false`, demo stream URL, no error — the resolver is
total); the SSE initial-state block, however, writes no `state` message
at all in that case (it neither errors nor sends the fallback). -/
theorem dangling_asset_degrades
    (sched : List ScheduleItem) (assets : List RadioAsset) (shows : List RadioShow)
    (now : Int) (demoChoice : Nat) (listeners : Int) (it : ScheduleItem)
    (hsel : getCurrentScheduledItem sched now = some it)
    (ha : getRadioAssetById assets it.assetId = none) :
    (resolveMetadata sched assets shows now demoChoice listeners).isScheduled = false ∧
    (resolveMetadata sched assets shows now demoChoice listeners).streamUrl =
      DEMO_STREAM_URL ∧
    initialSSEState sched assets now = none := by
  refine ⟨?_, ?_, ?_⟩
  · unfold resolveMetadata
    rw [hsel]
    dsimp only
    rw [ha]
    rfl
  · unfold resolveMetadata
    rw [hsel]
    dsimp only
    rw [ha]
    rfl
  · unfold initialSSEState
    rw [hsel]
    dsimp only
    rw [ha]

/-- Witness for the amended C4 at a concrete dangling state. -/
theorem dangling_asset_degrades_witness :
    (resolveMetadata [itemA] [] [] 5000 0 127).isScheduled = false ∧
    (resolveMetadata [itemA] [] [] 5000 0 127).streamUrl = DEMO_STREAM_URL ∧
    initialSSEState [itemA] [] 5000 = none :=
  dangling_asset_degrades [itemA] [] [] 5000 0 127 itemA (by decide) (by decide)

/-- C5 counterexample: three channels, the middle one throws on write.
After the broadcast, channel 0 received the message, channel 2 did *not*
(the `forEach` aborted), and the failing channel 1 is still in the
registry (its removal happens only on the connection close event). -/
theorem broadcast_failure_cex :
    broadcastToSSEClients "m"
        [ { id := 0, failsOnWrite := false, received := [] },
          { id := 1, failsOnWrite := true, received := [] },
          { id := 2, failsOnWrite := false, received := [] } ] =
      ([ { id := 0, failsOnWrite := false, received := ["m"] },
         { id := 1, failsOnWrite := true, received := [] },
         { id := 2, failsOnWrite := false, received := [] } ], some 1) := by
  decide

/-- C5 amended: `broadcastToSSEClients` has no error isolation — when
channel `c` is the first to throw, exactly the channels before it in
registry order receive the message, `c` and every later channel receive
nothing, no channel is evicted (the registry keeps the same channels in
order), and the exception propagates to the caller carrying `c`. -/
theorem broadcast_stops_at_first_failure
    (msg : String) (before after : List SSEChannel) (c : SSEChannel)
    (hbefore : ∀ ch ∈ before, ch.failsOnWrite = false)
    (hc : c.failsOnWrite = true) :
    broadcastToSSEClients msg (before ++ c :: after) =
      (before.map (fun ch => { ch with received := ch.received ++ [msg] })
        ++ c :: after, some c.id) := by
  induction before with
  | nil =>
    simp only [List.nil_append, List.map_nil]
    unfold broadcastToSSEClients
    rw [hc]
    rfl
  | cons hd tl ih =>
    have hhd : hd.failsOnWrite = false := hbefore hd (List.mem_cons_self hd tl)
    have htl : ∀ ch ∈ tl, ch.failsOnWrite = false := fun ch hch =>
      hbefore ch (List.mem_cons_of_mem hd hch)
    simp only [List.cons_append, List.map_cons]
    unfold broadcastToSSEClients
    rw [hhd]
    simp only [Bool.false_eq_true, if_false, ih htl]

/-- Channel fixtures for the C5 witness. -/
def chA : SSEChannel := { id := 0, failsOnWrite := false, received := [] }

def chFail : SSEChannel := { id := 7, failsOnWrite := true, received := [] }

def chB : SSEChannel := { id := 2, failsOnWrite := false, received := [] }

/-- Witness for the amended C5 on a concrete registry. -/
theorem broadcast_stops_at_first_failure_witness :
    broadcastToSSEClients "m" ([chA] ++ chFail :: [chB]) =
      ([chA].map (fun ch => { ch with received := ch.received ++ ["m"] })
        ++ chFail :: [chB], some chFail.id) :=
  broadcast_stops_at_first_failure "m" [chA] [chB] chFail
    (by decide) (by decide)

/-- C6 counterexample: creating a schedule item whose `assetId` resolves
to no asset succeeds (the item is inserted and returned) but triggers no
broadcast at all, contradicting the claim that every successful create
broadcasts a `schedule_update`. -/
theorem create_dangling_no_broadcast_cex :
    (createScheduleHandler [] [] itemA).1 = [itemA] ∧
    (createScheduleHandler [] [] itemA).2 = none := by
  decide

/-- C6 amended: a create broadcasts `schedule_update` with the item and
its asset exactly when the asset resolves, and broadcasts nothing on a
dangling `assetId`; a successful update always broadcasts
`schedule_update` carrying the item only (never the asset); a delete
always broadcasts `schedule_deleted` with the deleted id. -/
theorem schedule_mutations_broadcast
    (sched : List ScheduleItem) (assets : List RadioAsset)
    (item newItem : ScheduleItem) (id : String) :
    (createScheduleHandler sched assets item).2 =
      Option.map (fun a => BroadcastMsg.scheduleUpdate item (some a))
        (getRadioAssetById assets item.assetId) ∧
    Option.map Prod.snd (updateScheduleHandler sched id newItem) =
      (if sched.any (fun it => it.id == id) then
        some (BroadcastMsg.scheduleUpdate newItem none)
      else none) ∧
    (deleteScheduleHandler sched id).2 = BroadcastMsg.scheduleDeleted id := by
  refine ⟨?_, ?_, rfl⟩
  · unfold createScheduleHandler
    cases getRadioAssetById assets item.assetId with
    | none => rfl
    | some a => rfl
  · unfold updateScheduleHandler
    by_cases h : sched.any (fun it => it.id == id) = true
    · rw [if_pos h, if_pos h]
      rfl
    · rw [if_neg h, if_neg h]
      rfl

/-- The client in the LIVE state with the demo stream loaded and the
audio element at 50 s. -/
def liveState : ClientState :=
  { isScheduled := false
    isLive := true
    currentAsset := none
    currentTrack := { title := "GroupTherapy Radio", artist := "Live Stream",
                      showName := none, hostName := none }
    currentStreamUrl := DEMO_STREAM_URL
    startedAt := none
    progress := 0
    duration := 0
    audio := { src := DEMO_STREAM_URL, currentTime := 50, paused := false, loads := 1 } }

/-- A scheduled `state` message for `assetA` declaring position 100 s. -/
def schedMsgA : SSEMsg :=
  { type := MsgType.state
    isScheduled := true
    currentAsset := some assetA
    streamUrl := assetA.audioUrl
    startedAt := some 0
    positionSeconds := some 100
    showName := none
    hostName := none }

/-- C7 counterexample: a scheduled message reaching a LIVE client whose
local position diverges from the server value by 50 s (> 2 s) does *not*
snap to the server value: the position-correction guard reads the
pre-message `currentAsset`/`isLive` captured by the callback (none/true),
so the whole correction is skipped and playback restarts at 0 after the
source reload. -/
theorem reconciler_no_snap_from_live_cex :
    2 < |liveState.audio.currentTime - min 100 assetA.durationSeconds| ∧
    (handleSSEMessage liveState schedMsgA).audio.currentTime ≠
      min 100 assetA.durationSeconds ∧
    (handleSSEMessage liveState schedMsgA).audio.currentTime = 0 := by
  decide

/-- C7 amended: when the pre-message client state already has a current
asset and is not LIVE, a `state`/`schedule_update` message with
`isScheduled = true`, an asset, a position `p`, and an unchanged stream
URL snaps the audio position to `min p duration` (duration of its
pre-message asset) exactly when the divergence exceeds 2 s, and leaves
the audio element entirely untouched (no seek, no reload) when the
divergence is at most 2 s.  A message arriving while LIVE performs no
position correction at all (see the counterexample). -/
theorem reconciler_snap_when_scheduled
    (s : ClientState) (m : SSEMsg) (a a2 : RadioAsset) (p : Int)
    (hty : m.type = MsgType.state ∨ m.type = MsgType.scheduleUpdate)
    (hms : m.isScheduled = true)
    (hmc : m.currentAsset = some a2)
    (hurl : m.streamUrl = s.currentStreamUrl)
    (hmp : m.positionSeconds = some p)
    (hsa : s.currentAsset = some a)
    (hlive : s.isLive = false) :
    (2 < |s.audio.currentTime - min p a.durationSeconds| →
      (handleSSEMessage s m).audio.currentTime = min p a.durationSeconds) ∧
    (|s.audio.currentTime - min p a.durationSeconds| ≤ 2 →
      (handleSSEMessage s m).audio = s.audio) := by
  obtain ⟨ty, misch, mca, murl, msta, mpos, msn, mhn⟩ := m
  dsimp only at hty hms hmc hurl hmp
  subst hms hmc hurl hmp
  have hmain : ∀ ty2, ty2 = MsgType.state ∨ ty2 = MsgType.scheduleUpdate →
      (2 < |s.audio.currentTime - min p a.durationSeconds| →
        (handleSSEMessage s
          { type := ty2, isScheduled := true, currentAsset := some a2,
            streamUrl := s.currentStreamUrl, startedAt := msta,
            positionSeconds := some p, showName := msn,
            hostName := mhn }).audio.currentTime = min p a.durationSeconds) ∧
      (|s.audio.currentTime - min p a.durationSeconds| ≤ 2 →
        (handleSSEMessage s
          { type := ty2, isScheduled := true, currentAsset := some a2,
            streamUrl := s.currentStreamUrl, startedAt := msta,
            positionSeconds := some p, showName := msn,
            hostName := mhn }).audio = s.audio) := by
    intro ty2 hty2
    have hbody : (handleSSEMessage s
        { type := ty2, isScheduled := true, currentAsset := some a2,
          streamUrl := s.currentStreamUrl, startedAt := msta,
          positionSeconds := some p, showName := msn,
          hostName := mhn }).audio =
        (if 2 < |s.audio.currentTime - min p a.durationSeconds| then
          { s.audio with currentTime := min p a.durationSeconds }
        else s.audio) := by
      rcases hty2 with h | h
      all_goals subst h
      all_goals (
        unfold handleSSEMessage
        dsimp only
        rw [if_neg (fun hh => hh rfl)]
        unfold syncPlaybackPosition
        rw [hsa]
        dsimp only
        rw [if_neg (fun hh => Bool.false_ne_true (hlive ▸ hh))]
        cases msta with
        | none =>
          dsimp only
          by_cases hdiv : 2 < |s.audio.currentTime - min p a.durationSeconds|
          · rw [if_pos hdiv, if_pos hdiv]
          · rw [if_neg hdiv, if_neg hdiv]
        | some t0 =>
          dsimp only
          by_cases hdiv : 2 < |s.audio.currentTime - min p a.durationSeconds|
          · rw [if_pos hdiv, if_pos hdiv]
          · rw [if_neg hdiv, if_neg hdiv])
    constructor
    · intro hdiv
      rw [hbody, if_pos hdiv]
    · intro hdiv
      rw [hbody, if_neg (by omega)]
  exact hmain ty hty

/-- A SCHEDULED client playing `assetA` from `startedAt = 0`. -/
def schedClientState : ClientState :=
  { isScheduled := true
    isLive := false
    currentAsset := some assetA
    currentTrack := { title := assetA.title, artist := assetA.artist,
                      showName := none, hostName := none }
    currentStreamUrl := assetA.audioUrl
    startedAt := some 0
    progress := 175
    duration := 180
    audio := { src := assetA.audioUrl, currentTime := 175, paused := false, loads := 1 } }

/-- A scheduled update for `assetA` with the same stream URL, declaring
position 100 s while the local element is at 175 s. -/
def schedMsgSameUrl : SSEMsg :=
  { type := MsgType.scheduleUpdate
    isScheduled := true
    currentAsset := some assetA
    streamUrl := assetA.audioUrl
    startedAt := some 0
    positionSeconds := some 100
    showName := none
    hostName := none }

/-- Witness for the amended C7: divergence 75 s > 2 s, so the client
snaps to the server position 100 s. -/
theorem reconciler_snap_when_scheduled_witness :
    (handleSSEMessage schedClientState schedMsgSameUrl).audio.currentTime =
      min 100 assetA.durationSeconds :=
  (reconciler_snap_when_scheduled schedClientState schedMsgSameUrl assetA assetA 100
      (Or.inr (by decide)) (by decide) (by decide) (by decide) (by decide)
      (by decide) (by decide)).1 (by decide)

/-- C8: whenever the client is SCHEDULED with a `startedAt` and a current
asset, a progress tick at time `now` sets
`progress = min(floor((now - startedAt)/1000), durationSeconds)`; in
particular the reported position never exceeds the asset duration. -/
theorem progress_tick_clamped
    (s : ClientState) (now t : Int) (a : RadioAsset)
    (h1 : s.isScheduled = true) (h2 : s.startedAt = some t)
    (h3 : s.currentAsset = some a) :
    (updateProgressTick s now).progress =
      min ((now - t).fdiv 1000) a.durationSeconds ∧
    (updateProgressTick s now).progress ≤ a.durationSeconds := by
  have hmain : (updateProgressTick s now).progress =
      min ((now - t).fdiv 1000) a.durationSeconds := by
    unfold updateProgressTick
    rw [h1]
    dsimp only
    rw [h2, h3]
    rfl
  exact ⟨hmain, hmain ▸ min_le_right _ _⟩

/-- Witness for C8 at the spec's example: duration 180 s, server declared
175 s, one more second of local timer (now = 176000 ms from start): the
tick reports 176 ≤ 180; and the same theorem at `now = 200000` ms
(after the window) reports 180 ≤ 180. -/
theorem progress_tick_clamped_witness :
    ((updateProgressTick schedClientState 176000).progress =
        min (((176000 : Int) - 0).fdiv 1000) assetA.durationSeconds ∧
      (updateProgressTick schedClientState 176000).progress ≤
        assetA.durationSeconds) ∧
    ((updateProgressTick schedClientState 200000).progress =
        min (((200000 : Int) - 0).fdiv 1000) assetA.durationSeconds ∧
      (updateProgressTick schedClientState 200000).progress ≤
        assetA.durationSeconds) :=
  ⟨progress_tick_clamped schedClientState 176000 0 assetA
      (by decide) (by decide) (by decide),
    progress_tick_clamped schedClientState 200000 0 assetA
      (by decide) (by decide) (by decide)⟩

/-- C9: a `schedule_deleted` message, or a `state`/`schedule_update`
message with `isScheduled = false`, puts the client in LIVE:
`isScheduled` becomes false, `isLive` becomes true, the stream source is
the default demo URL, and the audio element is reloaded when a different
source was loaded.  (Hypothesis: the audio element's `src` tracks
`currentStreamUrl`, as every code path maintains.) -/
theorem unscheduled_message_goes_live
    (s : ClientState) (m : SSEMsg)
    (hinv : s.audio.src = s.currentStreamUrl)
    (hm : m.type = MsgType.scheduleDeleted ∨
      ((m.type = MsgType.state ∨ m.type = MsgType.scheduleUpdate) ∧
        m.isScheduled = false)) :
    (handleSSEMessage s m).isScheduled = false ∧
    (handleSSEMessage s m).isLive = true ∧
    (handleSSEMessage s m).currentStreamUrl = DEMO_STREAM_URL ∧
    (handleSSEMessage s m).audio.src = DEMO_STREAM_URL ∧
    (s.currentStreamUrl ≠ DEMO_STREAM_URL →
      (handleSSEMessage s m).audio.loads = s.audio.loads + 1) := by
  obtain ⟨ty, misch, mca, murl, msta, mpos, msn, mhn⟩ := m
  dsimp only at hm
  rcases hm with h | ⟨hty, hsch⟩
  · subst h
    unfold handleSSEMessage
    dsimp only [initAudio]
    exact ⟨rfl, rfl, rfl, rfl, fun _ => rfl⟩
  · subst hsch
    have hgoal : ∀ ty2, ty2 = MsgType.state ∨ ty2 = MsgType.scheduleUpdate →
        (handleSSEMessage s
          { type := ty2, isScheduled := false, currentAsset := mca,
            streamUrl := murl, startedAt := msta, positionSeconds := mpos,
            showName := msn, hostName := mhn }).isScheduled = false ∧
        (handleSSEMessage s
          { type := ty2, isScheduled := false, currentAsset := mca,
            streamUrl := murl, startedAt := msta, positionSeconds := mpos,
            showName := msn, hostName := mhn }).isLive = true ∧
        (handleSSEMessage s
          { type := ty2, isScheduled := false, currentAsset := mca,
            streamUrl := murl, startedAt := msta, positionSeconds := mpos,
            showName := msn, hostName := mhn }).currentStreamUrl =
          DEMO_STREAM_URL ∧
        (handleSSEMessage s
          { type := ty2, isScheduled := false, currentAsset := mca,
            streamUrl := murl, startedAt := msta, positionSeconds := mpos,
            showName := msn, hostName := mhn }).audio.src = DEMO_STREAM_URL ∧
        (s.currentStreamUrl ≠ DEMO_STREAM_URL →
          (handleSSEMessage s
            { type := ty2, isScheduled := false, currentAsset := mca,
              streamUrl := murl, startedAt := msta, positionSeconds := mpos,
              showName := msn, hostName := mhn }).audio.loads =
            s.audio.loads + 1) := by
      intro ty2 hty2
      rcases hty2 with h | h
      all_goals subst h
      all_goals (
        unfold handleSSEMessage
        dsimp only
        by_cases hd : DEMO_STREAM_URL ≠ s.currentStreamUrl
        · rw [if_pos hd]
          dsimp only [initAudio]
          exact ⟨rfl, rfl, rfl, rfl, fun _ => rfl⟩
        · rw [if_neg hd]
          push_neg at hd
          dsimp only
          refine ⟨rfl, rfl, hd.symm, ?_, ?_⟩
          · rw [hinv]
            exact hd.symm
          · intro hne
            exact absurd hd.symm hne)
    exact hgoal ty hty

/-- Witness for C9: the SCHEDULED client of `schedClientState` receives
`schedule_deleted` and lands in LIVE on the demo stream, reloading. -/
theorem unscheduled_message_goes_live_witness :
    (handleSSEMessage schedClientState
        { type := MsgType.scheduleDeleted, isScheduled := false,
          currentAsset := none, streamUrl := "", startedAt := none,
          positionSeconds := none, showName := none,
          hostName := none }).isScheduled = false ∧
    (handleSSEMessage schedClientState
        { type := MsgType.scheduleDeleted, isScheduled := false,
          currentAsset := none, streamUrl := "", startedAt := none,
          positionSeconds := none, showName := none,
          hostName := none }).isLive = true ∧
    (handleSSEMessage schedClientState
        { type := MsgType.scheduleDeleted, isScheduled := false,
          currentAsset := none, streamUrl := "", startedAt := none,
          positionSeconds := none, showName := none,
          hostName := none }).currentStreamUrl = DEMO_STREAM_URL ∧
    (handleSSEMessage schedClientState
        { type := MsgType.scheduleDeleted, isScheduled := false,
          currentAsset := none, streamUrl := "", startedAt := none,
          positionSeconds := none, showName := none,
          hostName := none }).audio.src = DEMO_STREAM_URL ∧
    (schedClientState.currentStreamUrl ≠ DEMO_STREAM_URL →
      (handleSSEMessage schedClientState
          { type := MsgType.scheduleDeleted, isScheduled := false,
            currentAsset := none, streamUrl := "", startedAt := none,
            positionSeconds := none, showName := none,
            hostName := none }).audio.loads = schedClientState.audio.loads + 1) :=
  unscheduled_message_goes_live schedClientState
    { type := MsgType.scheduleDeleted, isScheduled := false,
      currentAsset := none, streamUrl := "", startedAt := none,
      positionSeconds := none, showName := none, hostName := none }
    (by decide) (Or.inl (by decide))

/-- C10: `deleteSession` is a no-op — it returns the server state
unchanged, the auth check (`validateSession` via `GET /api/auth/me`)
answers identically before and after it for every token, and a token
issued at login stays valid (still yields its username) at any time
within its 24-hour lifetime even after logout was called on it. -/
theorem deleteSession_is_noop
    (st : AuthModuleState) (secret username : String) (issuedAt nowSec : Int)
    (t q : AuthToken)
    (hfresh : nowSec < issuedAt + jwtExpiresInSeconds) :
    deleteSession st t = st ∧
    authMeHandler (deleteSession st t) secret nowSec q =
      authMeHandler st secret nowSec q ∧
    authMeHandler (deleteSession st (createSession secret issuedAt username))
        secret nowSec (createSession secret issuedAt username) = some username := by
  refine ⟨rfl, rfl, ?_⟩
  unfold authMeHandler validateSession verifyToken createSession generateToken
  rw [if_pos ⟨rfl, hfresh⟩]
  rfl

/-- Witness for C10: a token signed at second 0 is still accepted one
second before the 24-hour mark, after logout deleted "its session". -/
theorem deleteSession_is_noop_witness :
    deleteSession { loginAttempts := [] }
        (createSession "s3cr3t" 0 "admin") = { loginAttempts := [] } ∧
    authMeHandler
        (deleteSession { loginAttempts := [] } (createSession "s3cr3t" 0 "admin"))
        "s3cr3t" 86399 (createSession "s3cr3t" 0 "admin") =
      authMeHandler { loginAttempts := [] } "s3cr3t" 86399
        (createSession "s3cr3t" 0 "admin") ∧
    authMeHandler
        (deleteSession { loginAttempts := [] } (createSession "s3cr3t" 0 "admin"))
        "s3cr3t" 86399 (createSession "s3cr3t" 0 "admin") = some "admin" :=
  deleteSession_is_noop { loginAttempts := [] } "s3cr3t" "admin" 0 86399
    (createSession "s3cr3t" 0 "admin") (createSession "s3cr3t" 0 "admin")
    (by decide)

end GroupTherapy
